import Mathlib

/-!
Shallow embedding of `scripts/fetch_streamelements_data.py`: the leaderboard
formatter, the marathon day calculator, the stats merge engine inlined in
`main`, the daily-log updater inlined in `main`, and the error handling of the
HTTP fetchers.  Every definition is translated from the source; dynamic Python
values are modelled explicitly (optional dictionary keys as `Option`, JSON
numbers as `ℚ`, Python `bool` amounts as a separate constructor because
`isinstance(b, int)` holds for booleans).
-/

namespace Tracker

/-- A leaderboard entry as built by `format_leaderboard`:
`{'username': ..., 'amount': int(...)}`. -/
structure Entry where
  username : String
  amount : Int
deriving DecidableEq, Repr

/-- The value found under the caller-specified amount key of a raw user
record: a JSON number (Python `int`/`float`, modelled as `ℚ`), a Python
boolean (which passes `isinstance(amount, (int, float))` since `bool` is a
subclass of `int`), or any other value (string, list, dict, null), which
fails the `isinstance` test. -/
inductive AmountVal where
  | num (q : ℚ)
  | boolean (b : Bool)
  | nonNumeric
deriving DecidableEq

/-- A raw user record from the StreamElements `top` endpoint, restricted to
the keys `format_leaderboard` reads: `name`, `username`, and the value under
the amount key.  `none` models an absent key (or JSON null). -/
structure RawUser where
  name : Option String
  username : Option String
  amount : Option AmountVal
deriving DecidableEq

/-- Python truthiness of an optional string, as used by the
`user.get('name') or user.get('username') or 'Unknown'` chain: `None` and the
empty string are falsy. -/
def strTruthy : Option String → Option String
  | some s => if s = "" then none else some s
  | none => none

/-- Username resolution from `format_leaderboard`:
`user.get('name') or user.get('username') or 'Unknown'`. -/
def resolveUsername (u : RawUser) : String :=
  match strTruthy u.name with
  | some s => s
  | none =>
    match strTruthy u.username with
    | some s => s
    | none => "Unknown"

/-- Test `isinstance(amount, (int, float))` — true for numbers and for booleans
(`bool` is a subclass of `int` in Python). -/
def isNumeric : AmountVal → Bool
  | .num _ => true
  | .boolean _ => true
  | .nonNumeric => false

/-- The numeric value of an amount; booleans count as 1 and 0.  The value for
`nonNumeric` is irrelevant because such amounts never pass `isNumeric`. -/
def amountToQ : AmountVal → ℚ
  | .num q => q
  | .boolean b => if b then 1 else 0
  | .nonNumeric => 0

/-- Python `int()` applied to a number: truncation toward zero. -/
def pyInt (q : ℚ) : Int := if 0 ≤ q then ⌊q⌋ else ⌈q⌉

/-- Lookup `user.get(amount_key, 0)`: the amount value with default `0`. -/
def rawAmount (u : RawUser) : AmountVal := u.amount.getD (.num 0)

/-- The filter of `format_leaderboard`:
`isinstance(amount, (int, float)) and amount > 0`. -/
def keeps (u : RawUser) : Bool :=
  isNumeric (rawAmount u) && decide (0 < amountToQ (rawAmount u))

/-- The loop body of `format_leaderboard` before sorting: keep each record
passing the amount filter, as `{'username': resolved, 'amount': int(amount)}`,
in encounter order. -/
def processUsers (users : List RawUser) : List Entry :=
  users.filterMap fun u =>
    if keeps u then some ⟨resolveUsername u, pyInt (amountToQ (rawAmount u))⟩
    else none

/-- The descending-by-amount order used by
`sorted(leaderboard, key=lambda x: x['amount'], reverse=True)`. -/
def entryGE (a b : Entry) : Prop := b.amount ≤ a.amount

instance : DecidableRel entryGE :=
  fun a b => inferInstanceAs (Decidable (b.amount ≤ a.amount))

instance : IsTotal Entry entryGE := ⟨fun a b => le_total b.amount a.amount⟩

instance : IsTrans Entry entryGE := ⟨fun _ _ _ h1 h2 => le_trans h2 h1⟩

/-- Function `format_leaderboard(users, amount_key)`: filter and map the records, then
stable-sort by amount descending.  Python's `sorted` is a stable sort; a
stable sort with respect to a total preorder is extensionally unique, so
`List.insertionSort` (stable) is a faithful model of it. -/
def format_leaderboard (users : List RawUser) : List Entry :=
  (processUsers users).insertionSort entryGE

/-- Function `calculate_marathon_day`, with times in integer seconds since an arbitrary
epoch.  `delta.days` on a Python `timedelta` is the floor of the elapsed
seconds divided by 86400 (timedelta normalisation), i.e. `Int.fdiv`; the
result is `max(1, min(28, delta.days + 1))`. -/
def calculate_marathon_day (nowSec startSec : Int) : Int :=
  max 1 (min 28 ((nowSec - startSec).fdiv 86400 + 1))

/-- The StreamElements stats payload, restricted to the keys `main` reads:
`se_stats.get('subscribers', {}).get('count', 0)` and
`se_stats.get('cheers', {}).get('amount', 0)`.  `none` models an absent
nested key anywhere along the path. -/
structure SEStats where
  subscribersCount : Option Int
  cheersAmount : Option Int
deriving DecidableEq

/-- The empty dictionary substituted by `main` when the stats fetch fails
(`se_stats = {}`). -/
def emptySE : SEStats := ⟨none, none⟩

/-- The nested `stats` block of a previously persisted document, restricted
to the keys `main` could read from it.  Note that `main` only ever reads
`marathonSubs` from this block; the nested `marathonStartFollowers` the
engine itself writes is never read back. -/
structure PriorStatsBlock where
  marathonSubs : Option Int
  marathonStartFollowers : Option Int
deriving DecidableEq

/-- A previously persisted stats document as `main` inspects it:
a top-level `marathonStartFollowers` lookup
(`'marathonStartFollowers' in existing_stats`), the optional nested `stats`
block, and the optional top-level `topChatters` list.  A `none` field models
an absent key; an all-`none` value models the empty dictionary. -/
structure PriorDoc where
  marathonStartFollowers : Option Int
  stats : Option PriorStatsBlock
  topChatters : Option (List Entry)
deriving DecidableEq

/-- The nested stats block the engine writes (lines 177–184 of the source). -/
structure StatsBlock where
  totalFollowers : Int
  marathonFollowers : Int
  marathonStartFollowers : Int
  totalSubs : Int
  marathonSubs : Int
  totalBits : Int
deriving DecidableEq

/-- The full stats document the engine writes (lines 171–188 of the source).
Its top-level keys are exactly `lastUpdated`, `marathonStart`, `marathonEnd`,
`currentDay`, `isLive`, `stats`, `topSubGifters`, `topBitDonors`,
`topChatters`; in particular `marathonStartFollowers` occurs only inside the
nested `stats` block, never at top level. -/
structure StatsDoc where
  lastUpdated : String
  marathonStart : String
  marathonEnd : String
  currentDay : Int
  isLive : Bool
  stats : StatsBlock
  topSubGifters : List Entry
  topBitDonors : List Entry
  topChatters : List Entry
deriving DecidableEq

/-- The `MARATHON_START` constant. -/
def MARATHON_START : String := "2025-10-27T00:00:00Z"

/-- The hard-coded `marathonEnd` value. -/
def MARATHON_END : String := "2025-11-24T00:00:00Z"

/-- The stats-merge step of `main` (lines 155–188): given the loaded prior
document (or `none` when `stats.json` is absent; recall that an empty or
all-absent document behaves the same because `existing_stats and
'marathonStartFollowers' in existing_stats` is also false for a falsy empty
dict, and every `.get` then returns its default) and the freshly fetched
values, produce the new document. -/
def mergeStats (existing : Option PriorDoc) (followerCount : Int)
    (isLive : Bool) (currentDay : Int) (topSubs topCheers : List RawUser)
    (seStats : SEStats) (lastUpdated : String) : StatsDoc :=
  let followersPair : Int × Int :=
    match existing with
    | some ex =>
      match ex.marathonStartFollowers with
      | some msf => (followerCount - msf, msf)
      | none => (0, followerCount)
    | none => (0, followerCount)
  let chatters : List Entry :=
    match existing with
    | some ex => ex.topChatters.getD []
    | none => []
  let priorMarathonSubs : Int :=
    match existing with
    | some ex => ((ex.stats.getD ⟨none, none⟩).marathonSubs).getD 0
    | none => 0
  { lastUpdated := lastUpdated
    marathonStart := MARATHON_START
    marathonEnd := MARATHON_END
    currentDay := currentDay
    isLive := isLive
    stats :=
      { totalFollowers := followerCount
        marathonFollowers := followersPair.1
        marathonStartFollowers := followersPair.2
        totalSubs := seStats.subscribersCount.getD 0
        marathonSubs := priorMarathonSubs
        totalBits := seStats.cheersAmount.getD 0 }
    topSubGifters := format_leaderboard topSubs
    topBitDonors := format_leaderboard topCheers
    topChatters := chatters }

/-- The prior-document view of a document the engine itself wrote and
persisted through a JSON round trip: the written document (lines 171–188)
has no top-level `marathonStartFollowers` key, so the top-level lookup yields
`none`, while the nested `stats` block and `topChatters` are present. -/
def docToPrior (d : StatsDoc) : PriorDoc :=
  { marathonStartFollowers := none
    stats := some
      { marathonSubs := some d.stats.marathonSubs
        marathonStartFollowers := some d.stats.marathonStartFollowers }
    topChatters := some d.topChatters }

/-- A per-day record of the daily log, as seeded by `main`
(lines 197–203). -/
structure DayRecord where
  date : String
  subGifters : List Entry
  bitDonors : List Entry
  chatters : List Entry
deriving DecidableEq

/-- The daily log: a JSON object, i.e. an insertion-ordered association of
day keys to day records (Python dicts preserve insertion order, and a new
key is appended at the end). -/
abbrev DailyLog := List (String × DayRecord)

/-- The daily-log update step of `main` (lines 194–205): if
`"day<currentDay>"` is absent, append a fresh record with today's date and
three empty sequences; otherwise leave the log unchanged. -/
def ensureDay (daily : DailyLog) (currentDay : Int) (today : String) :
    DailyLog :=
  let dayKey := "day" ++ toString currentDay
  match daily.lookup dayKey with
  | some _ => daily
  | none =>
    daily ++ [(dayKey, { date := today, subGifters := [], bitDonors := [],
                         chatters := [] })]

/-- Outcome of one HTTP GET as the fetchers observe it: a response with a
status code and a parsed body/payload, or a raised exception (timeout,
transport error). -/
inductive Fetch (α : Type) where
  | resp (status : Nat) (payload : α)
  | exn

/-- Fetcher `get_streamelements_stats`: the parsed JSON body on a 200 response,
`None` otherwise (non-200 status or exception). -/
def get_streamelements_stats : Fetch SEStats → Option SEStats
  | .resp status payload => if status = 200 then some payload else none
  | .exn => none

/-- Fetcher `get_streamelements_top_data`: on a 200 response, `data.get('users', [])
[:10]` (payload models the optional `users` key of the parsed body); an empty
list on non-200 status or exception. -/
def get_streamelements_top_data : Fetch (Option (List RawUser)) →
    List RawUser
  | .resp status payload =>
    if status = 200 then (payload.getD []).take 10 else []
  | .exn => []

/-- Python `str.strip()` on the characters of the body: drop whitespace from
both ends. -/
def pyStrip (cs : List Char) : List Char :=
  ((cs.dropWhile Char.isWhitespace).reverse.dropWhile Char.isWhitespace).reverse

/-- Python `str.lower()` on the characters of the body. -/
def pyLower (cs : List Char) : List Char := cs.map Char.toLower

/-- Python `str.isdigit()`: non-empty and all digits. -/
def pyIsDigit (cs : List Char) : Bool := !cs.isEmpty && cs.all Char.isDigit

/-- Decimal `int()` of an all-digit character sequence. -/
def digitsToNat (cs : List Char) : Nat :=
  cs.foldl (fun n c => 10 * n + (c.toNat - 48)) 0

/-- Fetcher `get_twitch_follower_count`: on a 200 response, `int(text)` when the
stripped body is all digits, else 0; 0 on non-200 status or exception. -/
def get_twitch_follower_count : Fetch String → Int
  | .resp status body =>
    if status = 200 then
      let count := pyStrip body.toList
      if pyIsDigit count then (digitsToNat count : Int) else 0
    else 0
  | .exn => 0

/-- Substring containment, modelling Python's `'offline' in text`. -/
def containsOffline (text : List Char) : Bool :=
  decide ("offline".toList <:+: text)

/-- Fetcher `get_twitch_live_status`: `False` on exception; on ANY response
(the status code is not checked), live iff the stripped, lowercased body does
not contain `"offline"`. -/
def get_twitch_live_status : Fetch String → Bool
  | .resp _ body => !containsOffline (pyLower (pyStrip body.toList))
  | .exn => false

/-! ### Helper lemmas -/

/-- Floor division by 86400 agrees with Euclidean division (the divisor is
positive). -/
theorem fdiv_86400_eq (a : Int) : a.fdiv 86400 = a / 86400 :=
  Int.fdiv_eq_ediv a (by norm_num)

/-- Lookup distributes over append when the key is absent from the first
list. -/
theorem lookup_append_none {β : Type} {l1 l2 : List (String × β)} {k : String}
    (h : List.lookup k l1 = none) :
    List.lookup k (l1 ++ l2) = List.lookup k l2 := by
  induction l1 with
  | nil => rfl
  | cons a l ih =>
    rw [List.cons_append]
    cases hk : (k == a.1) <;> simp only [List.lookup, hk] at h ⊢
    · exact ih h
    · exact absurd h (by simp)

/-- Lookup distributes over append when the key is present in the first
list. -/
theorem lookup_append_some {β : Type} {l1 l2 : List (String × β)} {k : String}
    {v : β} (h : List.lookup k l1 = some v) :
    List.lookup k (l1 ++ l2) = some v := by
  induction l1 with
  | nil => exact absurd h (by simp)
  | cons a l ih =>
    rw [List.cons_append]
    cases hk : (k == a.1) <;> simp only [List.lookup, hk] at h ⊢ <;>
      first
      | exact ih h
      | exact h

/-- The output dictionaries of `format_leaderboard`, read back as raw user
records: `name` absent, `username` present, the amount an integer under the
default key. -/
def entryToRaw (e : Entry) : RawUser :=
  { name := none, username := some e.username,
    amount := some (.num (e.amount : ℚ)) }

/-- The filter-map of `format_leaderboard` is the map of the kept records. -/
theorem processUsers_eq_map_filter (users : List RawUser) :
    processUsers users =
      (users.filter keeps).map
        (fun u => ⟨resolveUsername u, pyInt (amountToQ (rawAmount u))⟩) := by
  induction users with
  | nil => rfl
  | cons u l ih =>
    simp only [processUsers, List.filterMap_cons, List.filter_cons] at ih ⊢
    by_cases hk : keeps u = true
    · simp only [hk, if_true, List.map_cons, ih]
    · simp only [Bool.not_eq_true] at hk
      simp only [hk, if_false, Bool.false_eq_true, ih]

/-- A record is kept exactly when its amount key holds a numeric value that
is strictly positive. -/
theorem keeps_iff (u : RawUser) :
    keeps u = true ↔
      ∃ a, u.amount = some a ∧ isNumeric a = true ∧ 0 < amountToQ a := by
  cases hu : u.amount with
  | none => simp [keeps, rawAmount, hu, isNumeric, amountToQ]
  | some a => simp [keeps, rawAmount, hu]

/-- Membership in the pre-sort list of entries. -/
theorem mem_processUsers (users : List RawUser) (e : Entry) :
    e ∈ processUsers users ↔
      ∃ u, u ∈ users ∧ ∃ a, u.amount = some a ∧ isNumeric a = true ∧
        0 < amountToQ a ∧ e = ⟨resolveUsername u, pyInt (amountToQ a)⟩ := by
  rw [processUsers_eq_map_filter]
  simp only [List.mem_map, List.mem_filter]
  constructor
  · rintro ⟨u, ⟨hu, hk⟩, rfl⟩
    rcases (keeps_iff u).1 hk with ⟨a, ha, hnum, hpos⟩
    refine ⟨u, hu, a, ha, hnum, hpos, ?_⟩
    simp [rawAmount, ha]
  · rintro ⟨u, hu, a, ha, hnum, hpos, rfl⟩
    refine ⟨u, ⟨hu, (keeps_iff u).2 ⟨a, ha, hnum, hpos⟩⟩, ?_⟩
    simp [rawAmount, ha]

/-- Stability of the sort: filtering the sorted list at any fixed amount
gives the same sequence as filtering the unsorted list. -/
theorem filter_amount_insertionSort (l : List Entry) (v : Int) :
    (l.insertionSort entryGE).filter (fun e => decide (e.amount = v)) =
      l.filter (fun e => decide (e.amount = v)) := by
  have hpair :
      (l.filter (fun e => decide (e.amount = v))).Pairwise entryGE := by
    refine List.pairwise_of_forall_mem_list ?_
    intro a ha b hb
    have ha' : a.amount = v := by simpa using (List.mem_filter.1 ha).2
    have hb' : b.amount = v := by simpa using (List.mem_filter.1 hb).2
    show b.amount ≤ a.amount
    omega
  have hsub : List.Sublist (l.filter (fun e => decide (e.amount = v)))
      (l.insertionSort entryGE) :=
    List.sublist_insertionSort hpair (List.filter_sublist l)
  have hsub2 : List.Sublist (l.filter (fun e => decide (e.amount = v)))
      ((l.insertionSort entryGE).filter
        (fun e => decide (e.amount = v))) := by
    have h2 := hsub.filter (fun e => decide (e.amount = v))
    have h3 : (l.filter (fun e => decide (e.amount = v))).filter
        (fun e => decide (e.amount = v)) =
        l.filter (fun e => decide (e.amount = v)) := by
      simp [List.filter_filter]
    rwa [h3] at h2
  have hperm :
      ((l.insertionSort entryGE).filter
          (fun e => decide (e.amount = v))).Perm
        (l.filter (fun e => decide (e.amount = v))) :=
    (List.perm_insertionSort entryGE l).filter _
  exact (hsub2.eq_of_length hperm.length_eq.symm).symm

/-- A truthy optional string is never the empty string. -/
theorem strTruthy_ne_empty {o : Option String} {s : String}
    (h : strTruthy o = some s) : s ≠ "" := by
  cases o with
  | none => exact absurd h (by simp [strTruthy])
  | some t =>
    by_cases ht : t = ""
    · simp [strTruthy, ht] at h
    · simp only [strTruthy, ht, if_false, Option.some.injEq] at h
      subst h
      exact ht

/-- Resolved usernames are never empty. -/
theorem resolveUsername_ne_empty (u : RawUser) : resolveUsername u ≠ "" := by
  unfold resolveUsername
  cases h1 : strTruthy u.name with
  | some s => exact strTruthy_ne_empty h1
  | none =>
    cases h2 : strTruthy u.username with
    | some s => exact strTruthy_ne_empty h2
    | none => simp

/-- Python `int()` is the identity on integer-valued rationals. -/
theorem pyInt_intCast (n : Int) : pyInt (n : ℚ) = n := by
  unfold pyInt
  split <;> simp

/-- A read-back leaderboard entry with positive amount passes the filter. -/
theorem keeps_entryToRaw (e : Entry) (h : 0 < e.amount) :
    keeps (entryToRaw e) = true := by
  simp only [keeps, rawAmount, entryToRaw, Option.getD_some, isNumeric,
    amountToQ, Bool.true_and, decide_eq_true_eq]
  exact_mod_cast h

/-- Reading a formatted leaderboard back and re-filtering reproduces it,
provided its amounts are positive and its usernames non-empty. -/
theorem processUsers_map_entryToRaw (l : List Entry)
    (hpos : ∀ e, e ∈ l → 0 < e.amount)
    (hne : ∀ e, e ∈ l → e.username ≠ "") :
    processUsers (l.map entryToRaw) = l := by
  rw [processUsers_eq_map_filter]
  have hfilter : (l.map entryToRaw).filter keeps = l.map entryToRaw := by
    rw [List.filter_eq_self]
    intro a ha
    rcases List.mem_map.1 ha with ⟨e, he, rfl⟩
    exact keeps_entryToRaw e (hpos e he)
  rw [hfilter, List.map_map]
  have hpt : ∀ e ∈ l,
      ((fun u => (⟨resolveUsername u, pyInt (amountToQ (rawAmount u))⟩ :
          Entry)) ∘ entryToRaw) e = id e := by
    intro e he
    simp [Function.comp, resolveUsername, entryToRaw, strTruthy, hne e he,
      rawAmount, amountToQ, pyInt_intCast]
  rw [List.map_congr_left hpt, List.map_id]

/-! ### Theorems about the embedded program -/

/-- C6: `calculate_marathon_day` is a total function of the start timestamp
and the current time; it computes the floor of the elapsed days plus 1,
clamped into [1, 28].  At the start it yields 1; 27 days later, 28; 1000 days
later, still 28; one day before the start, 1; it always lies in [1, 28]; and
any current time preceding the start yields 1. -/
theorem calculate_marathon_day_spec (T now : Int) :
    calculate_marathon_day T T = 1 ∧
    calculate_marathon_day (T + 27 * 86400) T = 28 ∧
    calculate_marathon_day (T + 1000 * 86400) T = 28 ∧
    calculate_marathon_day (T - 86400) T = 1 ∧
    1 ≤ calculate_marathon_day now T ∧
    calculate_marathon_day now T ≤ 28 ∧
    (now < T → calculate_marathon_day now T = 1) := by
  simp only [calculate_marathon_day, fdiv_86400_eq]
  omega

/-- Witness for `calculate_marathon_day_spec` at the concrete start 0 and
current time one day earlier. -/
theorem calculate_marathon_day_spec_witness :
    (-86400 : Int) < 0 ∧ calculate_marathon_day (-86400) 0 = 1 :=
  ⟨by norm_num, (calculate_marathon_day_spec 0 (-86400)).2.2.2.2.2.2 (by norm_num)⟩

/-- C1: the persisted baseline is NOT carried forward across runs.  The
document a run writes holds `marathonStartFollowers` only inside the nested
`stats` block, while the next run's check looks it up at top level, so the
second run takes the baseline branch: starting from no prior document with
follower count 500 and then running again with follower count 530, the second
run outputs `marathonStartFollowers = 530` and `marathonFollowers = 0`
instead of the claimed 500 and 30. -/
theorem baseline_reset_across_runs :
    (mergeStats none 500 false 1 [] [] emptySE "t1").stats.marathonStartFollowers
        = 500 ∧
    (mergeStats none 500 false 1 [] [] emptySE "t1").stats.marathonFollowers
        = 0 ∧
    (mergeStats
        (some (docToPrior (mergeStats none 500 false 1 [] [] emptySE "t1")))
        530 false 2 [] [] emptySE "t2").stats.marathonStartFollowers = 530 ∧
    (mergeStats
        (some (docToPrior (mergeStats none 500 false 1 [] [] emptySE "t1")))
        530 false 2 [] [] emptySE "t2").stats.marathonFollowers = 0 :=
  ⟨rfl, rfl, rfl, rfl⟩

/-- C2: when the prior document is absent, or present but without a top-level
`marathonStartFollowers` key, the merge takes the baseline branch: the output
records the fresh follower count as `marathonStartFollowers` and 0 as
`marathonFollowers`; in particular with no prior document and fresh count 500
the output has baseline 500 and delta 0. -/
theorem mergeStats_baseline (existing : Option PriorDoc)
    (h : existing = none ∨
      ∃ p, existing = some p ∧ p.marathonStartFollowers = none)
    (fc : Int) (il : Bool) (cd : Int) (ts tc : List RawUser) (se : SEStats)
    (lu : String) :
    (mergeStats existing fc il cd ts tc se lu).stats.marathonStartFollowers
        = fc ∧
    (mergeStats existing fc il cd ts tc se lu).stats.marathonFollowers = 0 ∧
    (mergeStats none 500 il cd ts tc se lu).stats.marathonStartFollowers
        = 500 ∧
    (mergeStats none 500 il cd ts tc se lu).stats.marathonFollowers = 0 := by
  rcases h with rfl | ⟨p, rfl, hmsf⟩
  · exact ⟨rfl, rfl, rfl, rfl⟩
  · refine ⟨?_, ?_, rfl, rfl⟩ <;> simp [mergeStats, hmsf]

/-- Witness for `mergeStats_baseline`: no prior document, fresh count 500. -/
theorem mergeStats_baseline_witness :
    (mergeStats none 500 false 1 [] [] emptySE "t").stats.marathonStartFollowers
        = 500 ∧
    (mergeStats none 500 false 1 [] [] emptySE "t").stats.marathonFollowers
        = 0 :=
  ⟨(mergeStats_baseline none (Or.inl rfl) 500 false 1 [] [] emptySE "t").1,
   (mergeStats_baseline none (Or.inl rfl) 500 false 1 [] [] emptySE "t").2.1⟩

/-- C3: when the prior document does have a top-level `marathonStartFollowers`
value `b`, the output carries `b` forward unchanged and sets
`marathonFollowers` to the fresh count minus `b` with no clamping; with prior
baseline 500, a fresh count of 530 yields delta 30 and a decreased fresh
count of 490 yields the negative delta -10. -/
theorem mergeStats_carry_forward (p : PriorDoc) (b : Int)
    (h : p.marathonStartFollowers = some b) (fc : Int) (il : Bool) (cd : Int)
    (ts tc : List RawUser) (se : SEStats) (lu : String) :
    (mergeStats (some p) fc il cd ts tc se lu).stats.marathonStartFollowers
        = b ∧
    (mergeStats (some p) fc il cd ts tc se lu).stats.marathonFollowers
        = fc - b ∧
    (mergeStats (some ⟨some 500, none, none⟩) 530 il cd ts tc se
        lu).stats.marathonFollowers = 30 ∧
    (mergeStats (some ⟨some 500, none, none⟩) 530 il cd ts tc se
        lu).stats.marathonStartFollowers = 500 ∧
    (mergeStats (some ⟨some 500, none, none⟩) 490 il cd ts tc se
        lu).stats.marathonFollowers = -10 := by
  refine ⟨?_, ?_, rfl, rfl, rfl⟩ <;> simp [mergeStats, h]

/-- Witness for `mergeStats_carry_forward`: prior baseline 500, fresh count
530. -/
theorem mergeStats_carry_forward_witness :
    (mergeStats (some ⟨some 500, none, none⟩) 530 false 1 [] [] emptySE
        "t").stats.marathonStartFollowers = 500 ∧
    (mergeStats (some ⟨some 500, none, none⟩) 530 false 1 [] [] emptySE
        "t").stats.marathonFollowers = 530 - 500 :=
  ⟨(mergeStats_carry_forward ⟨some 500, none, none⟩ 500 rfl 530 false 1 [] []
      emptySE "t").1,
   (mergeStats_carry_forward ⟨some 500, none, none⟩ 500 rfl 530 false 1 [] []
      emptySE "t").2.1⟩

/-- C7: `topChatters` and `marathonSubs` are pass-through fields: they do not
depend on any freshly fetched value, the output `topChatters` is the prior
document's value when present and `[]` otherwise, the output `marathonSubs`
is the prior nested value when present and 0 otherwise, and a prior
`topChatters` of `[{"username": "x", "amount": 5}]` is reproduced exactly. -/
theorem mergeStats_passthrough (existing : Option PriorDoc)
    (fc fc' : Int) (il il' : Bool) (cd cd' : Int)
    (ts ts' tc tc' : List RawUser) (se se' : SEStats) (lu lu' : String) :
    (mergeStats existing fc il cd ts tc se lu).topChatters =
        (mergeStats existing fc' il' cd' ts' tc' se' lu').topChatters ∧
    (mergeStats existing fc il cd ts tc se lu).stats.marathonSubs =
        (mergeStats existing fc' il' cd' ts' tc' se' lu').stats.marathonSubs ∧
    ((mergeStats existing fc il cd ts tc se lu).topChatters =
        match existing with
        | some ex => ex.topChatters.getD []
        | none => []) ∧
    ((mergeStats existing fc il cd ts tc se lu).stats.marathonSubs =
        match existing with
        | some ex => ((ex.stats.getD ⟨none, none⟩).marathonSubs).getD 0
        | none => 0) ∧
    (mergeStats (some ⟨none, none, some [⟨"x", 5⟩]⟩) 0 false 1 [] [] emptySE
        "").topChatters = [⟨"x", 5⟩] := by
  refine ⟨?_, ?_, ?_, ?_, rfl⟩ <;> cases existing <;> rfl

/-- C10: a prior document with exactly the shape the engine itself writes —
`marathonStartFollowers` nested inside `stats`, absent at top level — always
sends the merge down the baseline branch: the output baseline is the fresh
follower count and the delta is 0. -/
theorem mergeStats_selfdoc_baseline (d : StatsDoc) (fc : Int) (il : Bool)
    (cd : Int) (ts tc : List RawUser) (se : SEStats) (lu : String) :
    (mergeStats (some (docToPrior d)) fc il cd ts tc se
        lu).stats.marathonStartFollowers = fc ∧
    (mergeStats (some (docToPrior d)) fc il cd ts tc se
        lu).stats.marathonFollowers = 0 :=
  ⟨rfl, rfl⟩

/-- C8: the daily-log updater is idempotent — running it twice for the same
day index changes nothing beyond the first run — and non-destructive: every
existing key still maps to its old record afterwards. -/
theorem ensureDay_idempotent_nondestructive (daily : DailyLog) (d : Int)
    (t1 t2 : String) (k : String) (v : DayRecord)
    (h : List.lookup k daily = some v) :
    ensureDay (ensureDay daily d t1) d t2 = ensureDay daily d t1 ∧
    List.lookup k (ensureDay daily d t1) = some v := by
  constructor
  · simp only [ensureDay]
    cases hl : List.lookup ("day" ++ toString d) daily with
    | some w => simp only [hl]
    | none =>
      simp only [hl]
      have hfound :
          List.lookup ("day" ++ toString d)
            (daily ++ [("day" ++ toString d,
              (⟨t1, [], [], []⟩ : DayRecord))]) =
            some ⟨t1, [], [], []⟩ := by
        rw [lookup_append_none hl]
        simp [List.lookup]
      simp only [hfound]
  · simp only [ensureDay]
    cases hl : List.lookup ("day" ++ toString d) daily with
    | some w => simp only [hl]; exact h
    | none => simp only [hl]; exact lookup_append_some h

/-- Witness for `ensureDay_idempotent_nondestructive` on a log already
holding `day3`. -/
theorem ensureDay_witness :
    List.lookup "day3"
        ([("day3", ⟨"2025-10-29", [], [], []⟩)] : DailyLog) =
      some ⟨"2025-10-29", [], [], []⟩ ∧
    ensureDay (ensureDay [("day3", ⟨"2025-10-29", [], [], []⟩)] 3 "2025-10-30")
        3 "2025-10-30" =
      ensureDay [("day3", ⟨"2025-10-29", [], [], []⟩)] 3 "2025-10-30" ∧
    List.lookup "day3"
        (ensureDay [("day3", ⟨"2025-10-29", [], [], []⟩)] 3 "2025-10-30") =
      some ⟨"2025-10-29", [], [], []⟩ := by
  have h := ensureDay_idempotent_nondestructive
    [("day3", ⟨"2025-10-29", [], [], []⟩)] 3 "2025-10-30" "2025-10-30" "day3"
    ⟨"2025-10-29", [], [], []⟩ (by decide)
  exact ⟨by decide, h.1, h.2⟩

/-- C9 (amended): the stats, leaderboard and follower fetchers substitute
their safe defaults (`None`, `[]`, `0`) on a non-200 response or an
exception; the live-status fetch yields `false` on an exception, and on any
received response — its status code is not inspected — it yields live exactly
when the stripped, lowercased body does not contain `"offline"`. -/
theorem fetch_soft_failure_defaults :
    (∀ (s : Nat) (p : SEStats), s ≠ 200 →
      get_streamelements_stats (.resp s p) = none) ∧
    get_streamelements_stats .exn = none ∧
    (∀ (s : Nat) (p : Option (List RawUser)), s ≠ 200 →
      get_streamelements_top_data (.resp s p) = []) ∧
    get_streamelements_top_data .exn = [] ∧
    (∀ (s : Nat) (b : String), s ≠ 200 →
      get_twitch_follower_count (.resp s b) = 0) ∧
    get_twitch_follower_count .exn = 0 ∧
    get_twitch_live_status .exn = false ∧
    (∀ (s : Nat) (b : String),
      get_twitch_live_status (.resp s b) =
        !containsOffline (pyLower (pyStrip b.toList))) := by
  refine ⟨?_, rfl, ?_, rfl, ?_, rfl, rfl, fun s b => rfl⟩ <;>
    intro s p h <;>
    simp [get_streamelements_stats, get_streamelements_top_data,
      get_twitch_follower_count, h]

/-- Witness for `fetch_soft_failure_defaults` at status 404. -/
theorem fetch_soft_failure_defaults_witness :
    get_streamelements_stats (.resp 404 emptySE) = none ∧
    get_streamelements_top_data (.resp 404 none) = [] ∧
    get_twitch_follower_count (.resp 404 "7") = 0 :=
  ⟨fetch_soft_failure_defaults.1 404 emptySE (by norm_num),
   fetch_soft_failure_defaults.2.2.1 404 none (by norm_num),
   fetch_soft_failure_defaults.2.2.2.2.1 404 "7" (by norm_num)⟩

/-- C4: the formatter's output is sorted by amount in descending order; ties
keep encounter order (the filter of the output at any fixed amount equals the
filter of the pre-sort sequence); and an entry appears exactly when some
input record holds a numeric, strictly positive amount under the amount key,
with the amount truncated to an integer and the username resolved as `name`
if present and non-empty, else `username` if present and non-empty, else
`"Unknown"`. -/
theorem format_leaderboard_spec (users : List RawUser) :
    List.Sorted entryGE (format_leaderboard users) ∧
    (∀ v : Int,
      (format_leaderboard users).filter (fun e => decide (e.amount = v)) =
        (processUsers users).filter (fun e => decide (e.amount = v))) ∧
    (∀ e : Entry, e ∈ format_leaderboard users ↔
      ∃ u, u ∈ users ∧ ∃ a, u.amount = some a ∧ isNumeric a = true ∧
        0 < amountToQ a ∧ e = ⟨resolveUsername u, pyInt (amountToQ a)⟩) := by
  refine ⟨List.sorted_insertionSort entryGE (processUsers users),
    fun v => filter_amount_insertionSort (processUsers users) v,
    fun e => ?_⟩
  show e ∈ (processUsers users).insertionSort entryGE ↔ _
  rw [List.mem_insertionSort]
  exact mem_processUsers users e

/-- C5 (amended): formatting is idempotent on every input whose formatted
output has only strictly positive amounts (equivalently, whose raw numeric
amounts never lie strictly between 0 and 1): feeding the output back through
the formatter reproduces it.  Without that proviso, a fractional amount in
(0, 1) is kept by the first pass, truncated to 0, and dropped by the second
pass. -/
theorem format_leaderboard_idem (users : List RawUser)
    (h : ∀ e, e ∈ format_leaderboard users → 0 < e.amount) :
    format_leaderboard ((format_leaderboard users).map entryToRaw) =
      format_leaderboard users := by
  have hne : ∀ e, e ∈ format_leaderboard users → e.username ≠ "" := by
    intro e he
    unfold format_leaderboard at he
    rw [List.mem_insertionSort] at he
    rcases (mem_processUsers users e).1 he with ⟨u, _, a, _, _, _, rfl⟩
    exact resolveUsername_ne_empty u
  have hproc : processUsers ((format_leaderboard users).map entryToRaw) =
      format_leaderboard users :=
    processUsers_map_entryToRaw _ h hne
  show (processUsers ((format_leaderboard users).map
      entryToRaw)).insertionSort entryGE = format_leaderboard users
  rw [hproc]
  exact List.Sorted.insertionSort_eq
    (List.sorted_insertionSort entryGE (processUsers users))

/-- Witness for `format_leaderboard_idem` on the spec's end-to-end
leaderboard example. -/
theorem format_leaderboard_idem_witness :
    (∀ e, e ∈ format_leaderboard
        [⟨some "a", none, some (.num 3)⟩, ⟨some "b", none, some (.num 7)⟩] →
      0 < e.amount) ∧
    format_leaderboard ((format_leaderboard
        [⟨some "a", none, some (.num 3)⟩,
         ⟨some "b", none, some (.num 7)⟩]).map entryToRaw) =
      format_leaderboard
        [⟨some "a", none, some (.num 3)⟩, ⟨some "b", none, some (.num 7)⟩] :=
  ⟨by decide, format_leaderboard_idem _ (by decide)⟩

/-- Counterexample to C5 as stated: a raw amount of 1/2 is numeric and
strictly positive, so it is kept and truncated to 0 by the first pass, and
then excluded by the second pass — formatting the formatter's own output is
not the identity on it. -/
theorem format_leaderboard_not_idem :
    format_leaderboard ((format_leaderboard
        [⟨none, some "a", some (.num (mkRat 1 2))⟩]).map entryToRaw) ≠
      format_leaderboard [⟨none, some "a", some (.num (mkRat 1 2))⟩] := by
  decide

/-- Counterexample to C9 as stated: a failing (non-200) live-status fetch
does not yield the safe default `false` — a 500 response whose body lacks
`"offline"` is reported as live. -/
theorem live_status_non200_not_default :
    get_twitch_live_status (.resp 500 "Internal Server Error") = true := by
  decide

end Tracker
